import Mathlib

/-!
Verification development for the Multilingual-Model PDF question-answering
repository.  The definitions below are shallow embeddings of the Python
source files (`app.py`, `backend/main.py`, `src/qa.py`, `src/ingest.py`,
`src/vector_store.py`): pure Python functions become Lean functions over
`String`/`List Char`, Python regular-expression substitutions become
dedicated matcher functions implementing the semantics of the concrete
pattern they embed, and behaviour of external libraries (PDF parsing, OCR,
the Chroma vector database, the LangChain text splitter, pandas CSV
parsing) is supplied through explicit parameters or, where the claim
requires it, modelled from the specification and marked as such.
-/

namespace MQA

/-! ## Python string primitives

Reusable embeddings of the Python `str` operations used by the source:
`str.strip`, `str.lower`, `str.split` (with and without a separator),
`str.splitlines`-style `split('\n')`, `str.find`, `in` (substring test)
and `'sep'.join`.  Python whitespace (`str.isspace`) is the set below;
`str.lower` is embedded for ASCII letters, which covers every cased
character appearing in the source's patterns (Devanagari has no case). -/

/-- Characters for which Python's `str.isspace` is true (and which `str.strip`
removes).  ASCII whitespace plus the Unicode space/separator code points. -/
def isPySpace (c : Char) : Bool :=
  c = ' ' || c = '\t' || c = '\n' || c = '\x0b' || c = '\x0c' || c = '\r' ||
  c = '\x1c' || c = '\x1d' || c = '\x1e' || c = '\x1f' || c = '\u0085' ||
  c = '\u00a0' || c = '\u1680' ||
  ('\u2000' ≤ c && c ≤ '\u200a') ||
  c = '\u2028' || c = '\u2029' || c = '\u202f' || c = '\u205f' || c = '\u3000'

/-- Python `str.lower` on a single character (ASCII range; all cased
characters in the embedded patterns and inputs are ASCII). -/
def pyLowerChar (c : Char) : Char :=
  if 'A' ≤ c && c ≤ 'Z' then Char.ofNat (c.toNat + 32) else c

/-- Python `str.strip()` on a character list. -/
def pyStripL (l : List Char) : List Char :=
  ((l.dropWhile isPySpace).reverse.dropWhile isPySpace).reverse

/-- Python `str.strip()`. -/
def pyStripS (s : String) : String := String.mk (pyStripL s.toList)

/-- Python `str.lower()`. -/
def pyLowerS (s : String) : String := String.mk (s.toList.map pyLowerChar)

/-- Python `str.split()` (no argument): split on whitespace runs, dropping
empty fields.  Auxiliary accumulating the current word reversed. -/
def splitWsAux : List Char → List Char → List (List Char)
  | [], acc => if acc = [] then [] else [acc.reverse]
  | c :: cs, acc =>
    if isPySpace c then
      if acc = [] then splitWsAux cs [] else acc.reverse :: splitWsAux cs []
    else splitWsAux cs (c :: acc)

/-- Python `str.split()` (no argument). -/
def splitWs (l : List Char) : List (List Char) := splitWsAux l []

/-- Python `str.split('\n')`: split on newline characters, keeping empty
fields. -/
def splitNlAux : List Char → List Char → List (List Char)
  | [], acc => [acc.reverse]
  | c :: cs, acc =>
    if c = '\n' then acc.reverse :: splitNlAux cs [] else splitNlAux cs (c :: acc)

/-- Python `str.split('\n')`. -/
def splitNl (l : List Char) : List (List Char) := splitNlAux l []

/-- Python `'sep'.join(parts)`. -/
def joinSep (sep : List Char) : List (List Char) → List Char
  | [] => []
  | [p] => p
  | p :: ps => p ++ sep ++ joinSep sep ps

/-- Match a literal at the head of `s` (case-sensitive); on success return
the remainder of `s` after the literal. -/
def matchLit : List Char → List Char → Option (List Char)
  | [], s => some s
  | _ :: _, [] => none
  | a :: as, b :: bs => if a = b then matchLit as bs else none

/-- Match a literal at the head of `s`, ignoring ASCII case (the semantics
of `re.IGNORECASE` for the literal parts of the embedded patterns); on
success return the remainder of `s` after the literal. -/
def matchLitCI : List Char → List Char → Option (List Char)
  | [], s => some s
  | _ :: _, [] => none
  | a :: as, b :: bs =>
    if pyLowerChar a = pyLowerChar b then matchLitCI as bs else none

/-- Remainder of `s` after the first (leftmost) case-insensitive occurrence
of `lit`; `none` when `lit` does not occur. -/
def findAfterCI (lit : List Char) : List Char → Option (List Char)
  | [] => matchLitCI lit []
  | c :: cs =>
    match matchLitCI lit (c :: cs) with
    | some rest => some rest
    | none => findAfterCI lit cs

/-- Index of the first case-insensitive occurrence of `lit` in `s`
(Python `s.lower().find(lit.lower())`). -/
def findIdxCI (lit : List Char) : List Char → Option Nat
  | [] => if (matchLitCI lit []).isSome then some 0 else none
  | c :: cs =>
    if (matchLitCI lit (c :: cs)).isSome then some 0
    else (findIdxCI lit cs).map (· + 1)

/-- Case-sensitive substring test (Python `lit in s`). -/
def hasSub (lit : List Char) : List Char → Bool
  | [] => (matchLit lit []).isSome
  | c :: cs => (matchLit lit (c :: cs)).isSome || hasSub lit cs

/-- Case-insensitive substring test. -/
def hasSubCI (lit : List Char) : List Char → Bool
  | [] => (matchLitCI lit []).isSome
  | c :: cs => (matchLitCI lit (c :: cs)).isSome || hasSubCI lit cs

/-- Case-sensitive substring test on strings. -/
def hasSubS (lit s : String) : Bool := hasSub lit.toList s.toList

/-- Python `str.split(sep)` for a non-empty separator: leftmost,
non-overlapping, keeping empty fields.  `fuel` bounds the recursion (each
step consumes at least one character); callers pass `s.length + 1`. -/
def splitOnSubAux (sep : List Char) : Nat → List Char → List Char → List (List Char)
  | 0, s, acc => [acc.reverse ++ s]
  | _ + 1, [], acc => [acc.reverse]
  | fuel + 1, c :: cs, acc =>
    match matchLit sep (c :: cs) with
    | some rest => acc.reverse :: splitOnSubAux sep fuel rest []
    | none => splitOnSubAux sep fuel cs (c :: acc)

/-- Python `str.split(sep)` for a non-empty separator. -/
def splitOnSub (sep s : List Char) : List (List Char) :=
  splitOnSubAux sep (s.length + 1) s []

/-! ## `src/qa.py`: `clean_answer` (lines 77-263)

Each `re.sub` call of the source becomes one pass below.  All the source's
patterns are a literal followed by a fixed tail (`\s*`, `[,\s]*`,
`\s*[:\-]?\s*`, a non-greedy run up to the first `.`, &c.), so each
pattern is embedded as a dedicated matcher consuming exactly the characters
the pattern's (unique) match would consume.  `re.sub` with a `^`-anchored
pattern under `re.MULTILINE` scans left to right, matching only at the
start of the string or immediately after a newline, and resumes scanning
after each (empty-replacement) match; `subStartsAux` implements that scan.
`fuel` bounds the recursion (every step consumes at least one character);
entry points pass `length + 1`. -/

/-- Tail of a meta-commentary pattern after its literal:
`\s*[:\-]?\s*`, `[,\s]*` or `\s*` (all greedy). -/
inductive MetaTail
  | wsColonDashWs
  | commaWs
  | ws

/-- Consume a `MetaTail` greedily. -/
def eatTail : MetaTail → List Char → List Char
  | .ws, s => s.dropWhile isPySpace
  | .commaWs, s => s.dropWhile (fun c => c = ',' || isPySpace c)
  | .wsColonDashWs, s =>
    let s1 := s.dropWhile isPySpace
    let s2 := match s1 with
      | c :: cs => if c = ':' || c = '-' then cs else s1
      | [] => s1
    s2.dropWhile isPySpace

/-- One `^`-anchored pattern of `meta_patterns` in `clean_answer`:
a case-insensitive literal plus a `MetaTail`. -/
structure MetaPat where
  lit : List Char
  tail : MetaTail

/-- Matcher for a `MetaPat` at a line start. -/
def metaMatch (p : MetaPat) (s : List Char) : Option (List Char) :=
  (matchLitCI p.lit s).map (eatTail p.tail)

/-- Matcher for an `explanation_patterns` entry `^LIT.*?\.\s*` under
`re.DOTALL`: the literal, then (non-greedily) everything up to and
including the first `.`, then a greedy whitespace run.  Fails when no `.`
follows (the regex requires one). -/
def consumeThroughDot : List Char → Option (List Char)
  | [] => none
  | c :: cs => if c = '.' then some cs else consumeThroughDot cs

/-- See `consumeThroughDot`. -/
def explMatch (lit : List Char) (s : List Char) : Option (List Char) :=
  (matchLitCI lit s).bind fun rest =>
    (consumeThroughDot rest).map (·.dropWhile isPySpace)

/-- `re.sub(pat, "", s)` for a `^`-anchored pattern under `re.MULTILINE`:
`m` is the pattern's matcher; `atStart` records whether the current
position is the string start or immediately follows a newline (the
positions where `^` matches).  Matches of length 0 are treated as
non-matches (no embedded pattern matches the empty string). -/
def subStartsAux (m : List Char → Option (List Char)) :
    Nat → List Char → Bool → List Char
  | 0, s, _ => s
  | _ + 1, [], _ => []
  | fuel + 1, c :: cs, atStart =>
    if atStart then
      match m (c :: cs) with
      | some rest =>
        let consumed := (c :: cs).length - rest.length
        if consumed = 0 then
          c :: subStartsAux m fuel cs (c = '
')
        else
          subStartsAux m fuel rest
            (((c :: cs).take consumed).getLast? = some '
')
      | none => c :: subStartsAux m fuel cs (c = '
')
    else c :: subStartsAux m fuel cs (c = '
')

/-- `re.sub(pat, "", s)` for a `^`-anchored pattern under `re.MULTILINE`. -/
def subStarts (m : List Char → Option (List Char)) (s : List Char) : List Char :=
  subStartsAux m (s.length + 1) s true

/-- The fourteen `meta_patterns` of `clean_answer` (qa.py lines 94-109),
in source order. -/
def metaPats : List MetaPat :=
  [⟨"The answer is".toList, .wsColonDashWs⟩,
   ⟨"According to the context".toList, .commaWs⟩,
   ⟨"Based on the provided context".toList, .commaWs⟩,
   ⟨"The information provided indicates that".toList, .ws⟩,
   ⟨"Note:".toList, .ws⟩,
   ⟨"Note that".toList, .ws⟩,
   ⟨"उत्तर यह है".toList, .wsColonDashWs⟩,
   ⟨"संदर्भ के अनुसार".toList, .commaWs⟩,
   ⟨"प्रदान किए गए संदर्भ के आधार पर".toList, .commaWs⟩,
   ⟨"सूचना से पता चलता है कि".toList, .ws⟩,
   ⟨"ध्यान दें:".toList, .ws⟩,
   ⟨"This work proposes".toList, .ws⟩,
   ⟨"The question asks".toList, .ws⟩,
   ⟨"The answer provided is".toList, .ws⟩]

/-- The literals of `explanation_patterns` (qa.py lines 115-120), each the
prefix of a `^LIT.*?\.\s*` pattern, in source order. -/
def explLits : List (List Char) :=
  ["The answer is found in".toList,
   "The question asks about".toList,
   "Note:".toList,
   "Note that".toList]

/-- `re.sub(r"\s*LITCHECK.*$", "", s)` under `re.DOTALL` without
`re.MULTILINE` (the `trailing_explanations` patterns, qa.py lines
125-131): the leftmost match starts at the first position where `check`
succeeds, extended left over the adjacent whitespace run (matched by the
greedy-but-leftmost `\s*`), and removes everything from there to the end
of the string.  When `check` never succeeds the string is unchanged. -/
def truncTrailingAux (check : List Char → Bool) :
    List Char → Nat → Option Nat
  | [], _ => none
  | c :: cs, i =>
    if check (c :: cs) then some i else truncTrailingAux check cs (i + 1)

/-- See `truncTrailingAux`. -/
def truncTrailing (check : List Char → Bool) (s : List Char) : List Char :=
  match truncTrailingAux check s 0 with
  | none => s
  | some q =>
    let wsRun := ((s.take q).reverse.takeWhile isPySpace).length
    s.take (q - wsRun)

/-- `re.sub(r"LITCHECK.*$", "", s)` under `re.DOTALL` (with or without
`re.MULTILINE`; the greedy `.*` runs to the end of the string either way):
truncate at the first position where `check` succeeds. -/
def truncFrom (check : List Char → Bool) (s : List Char) : List Char :=
  match truncTrailingAux check s 0 with
  | none => s
  | some q => s.take q

/-- Check for `trailing_explanations` pattern
`The answer is found in Section \d+` at the current position (the literal,
case-insensitively, followed by at least one ASCII digit). -/
def checkSectionDigit (s : List Char) : Bool :=
  match matchLitCI "The answer is found in Section ".toList s with
  | some (c :: _) => c.isDigit
  | _ => false

/-- Check for a plain case-insensitive literal at the current position. -/
def checkLitCI (lit : List Char) (s : List Char) : Bool :=
  (matchLitCI lit s).isSome

/-- The `question_format_phrases` of `clean_answer` (qa.py lines 134-144),
in source order. -/
def qfmtPhrases : List (List Char) :=
  ["नीचे दिए गए विकल्पों में से एक चुनें".toList,
   "choose from the options given below".toList,
   "select the correct answer".toList,
   "choose one of the options".toList,
   "नीचे दिए गए विकल्पों में से".toList,
   "from the options below".toList,
   "select from options".toList,
   "option".toList,
   "विकल्प".toList]

/-- The option markers looked for in the 100 characters after a matched
question-format phrase (qa.py line 152). -/
def qfmtMarkers : List (List Char) :=
  ["a)".toList, "b)".toList, "c)".toList, "d)".toList,
   "option a".toList, "option b".toList]

/-- The question-format-phrase removal loop of `clean_answer` (qa.py lines
146-154): for each phrase in order, find its first case-insensitive
occurrence; if the 100 characters from there contain an option marker,
truncate before the phrase, strip, and stop; otherwise try the next
phrase. -/
def applyQuestionFormat : List (List Char) → List Char → List Char
  | [], ans => ans
  | ph :: rest, ans =>
    match findIdxCI ph ans with
    | none => applyQuestionFormat rest ans
    | some idx =>
      let remaining := ((ans.drop idx).take 100).map pyLowerChar
      if qfmtMarkers.any (fun mk => hasSub mk remaining) then
        pyStripL (ans.take idx)
      else applyQuestionFormat rest ans

/-- `re.sub(r"LIT1.*?LIT2\s*", "", s)` under `re.IGNORECASE | re.DOTALL`
(the `question_answer_patterns`, qa.py lines 158-165): each match runs
from an occurrence of `LIT1` through the first following occurrence of
`LIT2` and a trailing whitespace run; matches are removed left to right.
When no `LIT2` follows an occurrence of `LIT1` nothing later can match
either (a later `LIT1` has a smaller search space), so scanning advances
one character. -/
def subPairAux (l1 l2 : List Char) : Nat → List Char → List Char
  | 0, s => s
  | _ + 1, [] => []
  | fuel + 1, c :: cs =>
    match matchLitCI l1 (c :: cs) with
    | some rest =>
      match findAfterCI l2 rest with
      | some rest2 => subPairAux l1 l2 fuel (rest2.dropWhile isPySpace)
      | none => c :: subPairAux l1 l2 fuel cs
    | none => c :: subPairAux l1 l2 fuel cs

/-- See `subPairAux`. -/
def subPair (l1 l2 : List Char) (s : List Char) : List Char :=
  subPairAux l1 l2 (s.length + 1) s

/-- The `question_answer_patterns` literal pairs (qa.py lines 158-163), in
source order. -/
def qaPairs : List (List Char × List Char) :=
  [("प्रश्न:".toList, "उत्तर:".toList),
   ("Question:".toList, "Answer:".toList),
   ("Q:".toList, "A:".toList),
   ("Q.".toList, "A.".toList)]

/-- `re.match(r"^[A-E]\)\s*", line, re.IGNORECASE)` (qa.py line 173):
the stripped line starts with a letter A-E (either case) followed by a
closing parenthesis. -/
def isOptionMarkerLine (l : List Char) : Bool :=
  match l with
  | a :: b :: _ =>
    (('A' ≤ a && a ≤ 'E') || ('a' ≤ a && a ≤ 'e')) && b = ')'
  | _ => false

/-- `re.match(r"^[A-E]\s*$", line, re.IGNORECASE)` (qa.py line 176): a
letter A-E (either case) followed only by whitespace. -/
def isBareOptionLetter (l : List Char) : Bool :=
  match l with
  | a :: rest =>
    (('A' ≤ a && a ≤ 'E') || ('a' ≤ a && a ≤ 'e')) && rest.all isPySpace
  | [] => false

/-- `re.match(r"^(प्रश्न|Question|Q):", line, re.IGNORECASE)` (qa.py line
179). -/
def isQuestionEchoLine (l : List Char) : Bool :=
  checkLitCI "प्रश्न:".toList l || checkLitCI "Question:".toList l ||
  checkLitCI "Q:".toList l

/-- The per-line filter of `clean_answer` (qa.py lines 168-182): drop
option-marker lines, bare option letters and question-echo lines, then
rejoin with newlines and strip. -/
def filterOptionLines (s : List Char) : List Char :=
  let kept := (splitNl s).filter fun line =>
    let ls := pyStripL line
    !(isOptionMarkerLine ls || isBareOptionLetter ls || isQuestionEchoLine ls)
  pyStripL (joinSep ['
'] kept)

/-- Check for the `translation_patterns` entry
`यह उत्तर .*? में है.*$` at the current position: the first literal followed
somewhere later by the second. -/
def checkHindiTranslationNote (s : List Char) : Bool :=
  match matchLitCI "यह उत्तर ".toList s with
  | some rest => (findAfterCI " में है".toList rest).isSome
  | none => false

/-- The `translation_patterns` passes of `clean_answer` (qa.py lines
185-193): each pattern ends in `.*$` under `re.DOTALL`, so each match
removes everything from its first occurrence to the end of the string. -/
def applyTranslationPats (s : List Char) : List Char :=
  let s1 := truncFrom (checkLitCI "Translation:".toList) s
  let s2 := truncFrom (checkLitCI "Translated:".toList) s1
  let s3 := truncFrom (checkLitCI "The answer is in Hindi".toList) s2
  let s4 := truncFrom (checkLitCI "The answer is in English".toList) s3
  truncFrom checkHindiTranslationNote s4

/-- Sentence terminators recognised by `clean_answer` (qa.py line 203):
`.`, `!`, `?` and the Devanagari danda. -/
def isTerm (c : Char) : Bool :=
  c = '.' || c = '!' || c = '?' || c = '।'

/-- The sentence-splitting loop of `clean_answer` (qa.py lines 198-213):
accumulate characters, closing a sentence at each terminator (stripped,
dropped if blank); a trailing unterminated fragment is kept only when its
stripped length is at least 10. -/
def splitSentencesAux : List Char → List Char → List (List Char)
  | [], cur =>
    let t := pyStripL cur.reverse
    if t ≠ [] && t.length ≥ 10 then [t] else []
  | c :: cs, cur =>
    if isTerm c then
      let t := pyStripL (c :: cur).reverse
      if t ≠ [] then t :: splitSentencesAux cs [] else splitSentencesAux cs []
    else splitSentencesAux cs (c :: cur)

/-- See `splitSentencesAux`. -/
def splitSentences (s : List Char) : List (List Char) := splitSentencesAux s []

/-- The sentence de-duplication loop of `clean_answer` (qa.py lines
216-223): a sentence is kept when its normalised (lowercased,
whitespace-collapsed) form is unseen and its stripped length exceeds 5;
only kept sentences mark their normalised form as seen. -/
def dedupSentencesAux :
    List (List Char) → List (List Char) → List (List Char) → List (List Char)
  | [], uniq, _ => uniq.reverse
  | sent :: rest, uniq, seen =>
    let normalized := joinSep [' '] (splitWs (sent.map pyLowerChar))
    if !(seen.contains normalized) && (pyStripL sent).length > 5 then
      dedupSentencesAux rest (sent :: uniq) (normalized :: seen)
    else dedupSentencesAux rest uniq seen

/-- See `dedupSentencesAux`. -/
def dedupSentences (sents : List (List Char)) : List (List Char) :=
  dedupSentencesAux sents [] []

/-- The fallback branch of `clean_answer` (qa.py lines 228-236), entered
when de-duplication kept no sentence: take the (already processed) answer;
if it is non-empty and unterminated, cut at the last space when that space
sits in the final fifth of the text (`last_space > len(result) * 0.8`,
embedded exactly as `5 * i > 4 * length`, which agrees with the source's
float comparison for all lengths arising here), then append a period. -/
def fallbackResult (answer : List Char) : List Char :=
  match answer.getLast? with
  | none => answer
  | some c =>
    if isTerm c then answer
    else
      let cut :=
        match (answer.length - 1 - ·) <$>
            (answer.reverse.findIdx? (· = ' ')) with
        | some i => if 5 * i > 4 * answer.length then answer.take i else answer
        | none => answer
      cut ++ ['.']

/-- All 4-word windows of a word list, joined by single spaces (qa.py
lines 243-248). -/
def windows4 : List (List Char) → List (List Char)
  | a :: b :: c :: d :: rest =>
    joinSep [' '] [a, b, c, d] :: windows4 (b :: c :: d :: rest)
  | _ => []

/-- Increment the count of a key in an insertion-ordered association list
(the embedding of the `seen_phrases` dict, whose iteration order is
insertion order). -/
def bumpCount (k : List Char) : List (List Char × Nat) → List (List Char × Nat)
  | [] => [(k, 1)]
  | (k', n) :: rest =>
    if k = k' then (k', n + 1) :: rest else (k', n) :: bumpCount k rest

/-- Counts of all 4-word phrases in first-occurrence order. -/
def phraseCounts (ws : List (List Char)) : List (List Char × Nat) :=
  (windows4 ws).foldl (fun acc k => bumpCount k acc) []

/-- The phrase-removal loop of `clean_answer` (qa.py lines 250-257): the
first phrase (in insertion order) occurring more than twice whose
`str.split` yields more than two parts has its second occurrence removed
(`phrase.join([parts[0]] + parts[2:])`), and the loop stops. -/
def removeRepeatedPhrase : List (List Char × Nat) → List Char → List Char
  | [], r => r
  | (ph, cnt) :: rest, r =>
    if cnt > 2 then
      match splitOnSub ph r with
      | p0 :: _ :: p2 :: ps => joinSep ph (p0 :: p2 :: ps)
      | _ => removeRepeatedPhrase rest r
    else removeRepeatedPhrase rest r

/-- The excessive-repetition step of `clean_answer` (qa.py lines 239-257),
applied only when the result has more than 15 words. -/
def applyRepetition (result : List Char) : List Char :=
  let ws := splitWs result
  if ws.length > 15 then removeRepeatedPhrase (phraseCounts ws) result
  else result

/-- `clean_answer` (qa.py lines 77-263), the answer normaliser: strips the
input, removes meta-commentary and leaked question-format text via the
pattern passes above, splits into sentences, de-duplicates them, falls
back to the processed text when nothing survives, collapses a repeated
4-word phrase, guarantees a terminator, and strips. -/
def clean_answer (answer : String) : String :=
  if answer = "" then answer
  else
    let a0 := pyStripL answer.toList
    let a1 := metaPats.foldl (fun a p => subStarts (metaMatch p) a) a0
    let a2 := explLits.foldl (fun a lit => subStarts (explMatch lit) a) a1
    let a3 := truncTrailing checkSectionDigit a2
    let a4 := truncTrailing (checkLitCI "Note:".toList) a3
    let a5 := truncTrailing (checkLitCI "Note that".toList) a4
    let a6 := applyQuestionFormat qfmtPhrases a5
    let a7 := qaPairs.foldl (fun a pr => subPair pr.1 pr.2 a) a6
    let a8 := filterOptionLines a7
    let a9 := applyTranslationPats a8
    let uniq := dedupSentences (splitSentences a9)
    let r1 :=
      if uniq ≠ [] then pyStripL (joinSep [' '] uniq)
      else fallbackResult a9
    let r2 := applyRepetition r1
    let r3 :=
      match r2.getLast? with
      | some c => if isTerm c then r2 else r2 ++ ['.']
      | none => r2
    String.mk (pyStripL r3)

/-! ## `app.py`: language detection and the Streamlit query handler -/

/-- `detect_language` (app.py lines 19-24): Hindi when the text contains a
Devanagari code point, Hinglish when its lowercase form contains one of
seven romanised Hindi words as a substring, else English. -/
def detect_language (text : String) : String :=
  if text.toList.any (fun c => 0x900 ≤ c.toNat && c.toNat ≤ 0x97F) then "hindi"
  else if (["kya", "ka", "ki", "hai", "ko", "me", "se"].map String.toList).any
      (fun w => hasSub w (text.toList.map pyLowerChar)) then "hinglish"
  else "english"

/-- A retrieved document as the Python code sees it: `page_content` plus
the metadata fields ingestion writes (`source`, `page`, `type`). -/
structure PyDocument where
  page_content : String
  source : String
  page : Nat
  type : String
deriving DecidableEq, Repr

/-- A Python exception, as far as the embedded code can raise one. -/
inductive PyExc
  | nameError (n : String)
deriving DecidableEq, Repr

/-- Python `str(exc)` for the exceptions above. -/
def pyExcStr : PyExc → String
  | .nameError n => "name '" ++ n ++ "' is not defined"

/-- Every name that is ever assigned in the module scope of `app.py`
(module-level statements, including the query handler's assignments,
gathered from reading every assignment and binding in the file) together
with its imported names.  The chat input is bound as `prompt` (line 204);
no statement in the file ever binds the name `question`. -/
def appBoundNames : List String :=
  ["json", "os", "tempfile", "warnings", "Path", "re", "st",
   "ingest_file", "build_chain", "clean_answer", "VectorStore",
   "detect_language", "CHAT_HISTORY_FILE", "load_chat_history",
   "save_chat_history", "clear_before_upload", "uploaded", "ingest_status",
   "tmp", "tmp_path", "count", "db_path", "exc", "doc_count",
   "chat_container", "msg", "source_docs_data", "i", "doc_data",
   "source_info", "page_num", "doc_type", "content_preview", "prompt",
   "time", "user_message", "message_placeholder", "status_text",
   "response", "raw_answer", "source_docs", "lang", "answer", "e",
   "traceback", "error_details", "source_docs_serialized", "doc",
   "assistant_message", "current_mtime"]

/-- Python name resolution inside the query handler: a bound name
evaluates to its value (supplied by `vals`); an unbound name raises
`NameError`. -/
def appLookup (vals : String → String) (n : String) : Except PyExc String :=
  if appBoundNames.contains n then .ok (vals n) else .error (.nameError n)

/-- The Hindi not-found message of app.py line 247. -/
def hindiNotFound : String := "उत्तर संदर्भ में नहीं मिला"

/-- The English not-found message of app.py line 249. -/
def englishNotFound : String := "Answer not found in context"

/-- The no-documents message of app.py line 230. -/
def appNoDocsMsg : String :=
  "⚠️ **No documents found in the database.**\n\nPlease upload a PDF first using the sidebar."

/-- The no-response message of app.py line 255. -/
def appNoResponseMsg : String :=
  "⚠️ **No response generated.**\n\nThe model did not produce an answer. This might be due to:\n- No relevant documents found\n- Model loading issue\n- Context window exceeded\n\nPlease check the source documents below or try re-uploading the PDF."

/-- The answer selection of app.py lines 245-258, given the detected
language and the (already stripped) raw answer.  The first conditional
substitutes the localized not-found message for the `NOT_FOUND` sentinel;
the second conditional then reassigns `answer` unconditionally, so for any
non-blank raw answer — the sentinel included — the final value is
`clean_answer raw_answer`. -/
def appAnswerSelect (lang raw_answer : String) : String :=
  let answer :=
    if raw_answer = "NOT_FOUND" then
      if lang = "hindi" then hindiNotFound else englishNotFound
    else clean_answer raw_answer
  let answer :=
    if raw_answer = "" ∨ pyStripS raw_answer = "" then appNoResponseMsg
    else clean_answer raw_answer
  answer

/-- The `try` block of the app.py query handler (lines 226-258): the
no-documents short-circuit, then the chain invocation
(`qa_chain.invoke({"query": prompt})`, with the chain supplied as the
input `invoke`), the
stripping of the raw answer, the evaluation of `detect_language(question)`
— whose name lookup of `question` is the handler's line 243 — and the
answer selection. -/
def appQueryTry (vals : String → String) (docCount : Nat) (prompt : String)
    (invoke : String → String × List PyDocument) :
    Except PyExc (String × List PyDocument) :=
  if docCount = 0 then .ok (appNoDocsMsg, [])
  else do
    let response := invoke prompt
    let raw_answer := pyStripS response.1
    let source_docs := response.2
    let question ← appLookup vals "question"
    let lang := detect_language question
    .ok (appAnswerSelect lang raw_answer, source_docs)

/-- The error-formatted answer of app.py line 262 (`tb` is the
`traceback.format_exc()` text). -/
def appErrorMsg (e : PyExc) (tb : String) : String :=
  "❌ **Error generating response:**\n\n```\n" ++ pyExcStr e ++
  "\n```\n\n**Full error details:**\n```\n" ++ tb ++ "\n```"

/-- The app.py query handler's `try/except` (lines 226-263): a normal
completion returns its answer and sources; an exception produces the
error-formatted answer and an empty source list. -/
def appHandleQuery (vals : String → String) (docCount : Nat)
    (prompt : String) (invoke : String → String × List PyDocument)
    (tb : String) : String × List PyDocument :=
  match appQueryTry vals docCount prompt invoke with
  | .ok r => r
  | .error e => (appErrorMsg e tb, [])

/-! ## `backend/main.py`: the `/api/ask` answer computation -/

/-- Keywords that route a question into the hallucination heuristic
(main.py line 334). -/
def limitKeywords : List String :=
  ["limitation", "limitations", "कमी", "सीमाएं"]

/-- Vague limitation mentions looked for in the source content
(main.py lines 342-347). -/
def vagueMentions : List String :=
  ["limitations were identified",
   "limitations and shortcomings were identified",
   "limitations were",
   "shortcomings were"]

/-- Specific limitation phrases looked for in the source content
(main.py lines 361-364). -/
def specificMentions : List String :=
  ["limitation is", "limitation of", "first limitation",
   "second limitation", "main limitation", "key limitation",
   "primary limitation"]

/-- `re.search(r"L1.*L2.*L3", s, re.IGNORECASE)` without `re.DOTALL`
(the `generic_patterns_in_answer` of main.py lines 351-355): `.` does not
cross newlines and the literals contain none, so a match exists exactly
when some newline-free segment contains the three literals in order,
non-overlapping. -/
def seqInLine (l1 l2 l3 line : List Char) : Bool :=
  match findAfterCI l1 line with
  | none => false
  | some r1 =>
    match findAfterCI l2 r1 with
    | none => false
    | some r2 => hasSubCI l3 r2

/-- See `seqInLine`. -/
def reSearchSeq3 (l1 l2 l3 : String) (s : String) : Bool :=
  (splitNl s.toList).any (seqInLine l1.toList l2.toList l3.toList)

/-- Devanagari test used by the backend (main.py line 366):
`ord(c) >= 0x0900 and ord(c) <= 0x097F` over the question. -/
def hasDevanagari (s : String) : Bool :=
  s.toList.any (fun c => 0x900 ≤ c.toNat && c.toNat ≤ 0x97F)

/-- The answer computation of the `/api/ask` endpoint (main.py lines
316-373), as a function of the question, the raw generator output and the
retrieved source documents.  `extract` is `extract_answer_from_sources`
(main.py lines 71-172), the fallback used only when the raw answer is
blank; it is a parameter because its accuracy heuristics parse
floating-point numbers, which this embedding does not model.  For a
non-blank raw answer the code cleans it, restores the stripped raw text
when cleaning removed everything, and applies the limitations-question
hallucination heuristic; no other inspection of the source documents
occurs. -/
def backendAnswer (extract : String → List PyDocument → String)
    (question raw_answer : String) (source_docs : List PyDocument) : String :=
  if raw_answer ≠ "" ∧ pyStripS raw_answer ≠ "" then
    let answer := clean_answer raw_answer
    let answer :=
      if answer = "" ∨ pyStripS answer = "" then pyStripS raw_answer
      else answer
    let question_lower := pyLowerS question
    if limitKeywords.any (fun kw => hasSubS kw question_lower) then
      let all_source_content :=
        pyLowerS (String.mk (joinSep [' ']
          (source_docs.map (fun d => d.page_content.toList))))
      let has_vague_mention :=
        vagueMentions.any (fun ph => hasSubS ph all_source_content)
      let has_generic :=
        reSearchSeq3 "real-time" "network" "traffic" answer ||
        reSearchSeq3 "handle" "network" "traffic" answer ||
        reSearchSeq3 "analyze" "network" "traffic" answer
      if has_vague_mention && has_generic &&
          !(specificMentions.any (fun ph => hasSubS ph all_source_content)) then
        if hasDevanagari question then hindiNotFound else englishNotFound
      else answer
    else answer
  else
    let answer := extract question source_docs
    if answer = "" then
      "⚠️ **No response generated.**\n\nThe model did not produce an answer. Please check the source documents below."
    else answer

/-- Modelled from the spec: the `GroundingValidator.isGrounded` contract of
§4.6 — tokenize the candidate answer and the concatenation of all source
passage texts into lowercase word sets and require an intersection of at
least 2 distinct tokens.  No function implementing this (or any lexical
overlap check) exists anywhere in the repository's code; this definition
exists so the claim about it can be stated and compared with what the code
does. -/
def isGroundedSpec (candidateAnswer : String) (sourcePassages : List String) : Bool :=
  let answerTokens := (splitWs (candidateAnswer.toList.map pyLowerChar)).dedup
  let passageTokens :=
    (splitWs ((joinSep [' '] (sourcePassages.map String.toList)).map pyLowerChar)).dedup
  2 ≤ (answerTokens.filter (fun t => passageTokens.contains t)).length

/-! ## `src/ingest.py`: page assembly, document building, ingestion

`extract_pdf`, the OCR and the table detection wrap external libraries
(PyMuPDF, PaddleOCR); their per-page output is the `PageExtraction`
record below, which `build_documents` consumes.  The LangChain
`RecursiveCharacterTextSplitter` and the pandas CSV parse are likewise
external, so `build_documents` takes them as parameters `split` and
`parseCsv`: every claim proved below either holds for all of them or is
instantiated with an explicit concrete one. -/

/-- The per-page extraction record (ingest.py lines 73-77). -/
structure PageExtraction where
  text : String
  tables : List String
  ocr_text : String
deriving DecidableEq, Repr

/-- The per-page text composition of `build_documents` (ingest.py lines
191-211): OCR text alone when the stripped native text is shorter than 50
characters and the stripped OCR text is non-empty; both joined by a blank
line when both are (truthily) present; else whichever is present; else
empty.  Note the first branch compares the length of the *stripped* OCR
text, while the later branches test the unstripped `page.ocr_text` for
truthiness. -/
def compose_page_text (page : PageExtraction) : String :=
  let extracted_text_len := (pyStripS page.text).length
  let ocr_text_len :=
    if page.ocr_text ≠ "" then (pyStripS page.ocr_text).length else 0
  if extracted_text_len < 50 ∧ ocr_text_len > 0 then
    page.ocr_text
  else if pyStripS page.text ≠ "" ∧ page.ocr_text ≠ "" then
    page.text ++ "\n\n" ++ page.ocr_text
  else if pyStripS page.text ≠ "" then
    page.text
  else if page.ocr_text ≠ "" then
    page.ocr_text
  else
    ""

/-- The table documents a single page contributes (ingest.py lines
217-236): each table CSV is parsed (`parseCsv`, the
`pd.read_csv(pd.compat.StringIO(...))` attempt — `pd.compat.StringIO` does
not exist in current pandas, so at runtime the attempt raises and the
fallback runs, i.e. `parseCsv = fun _ => none`; it is a parameter so both
branches are covered); on failure the whole CSV becomes one document of
type `"table"`, on success each row becomes a document of type
`"table_row"` with its cells joined by `" | "`.  `idx` is the 0-based page
index; the metadata page is `idx + 1`. -/
def tableDocsOfPage (parseCsv : String → Option (List (List String)))
    (source : String) (idx : Nat) (page : PageExtraction) : List PyDocument :=
  page.tables.flatMap fun table_csv =>
    match parseCsv table_csv with
    | none => [⟨table_csv, source, idx + 1, "table"⟩]
    | some rows =>
      rows.map fun row =>
        ⟨String.mk (joinSep " | ".toList (row.map String.toList)),
         source, idx + 1, "table_row"⟩

/-- `build_documents` (ingest.py lines 187-251): the page loop collects
the composed text of every page whose composed text is non-blank into
`text_blocks` and emits the table documents page by page; afterwards each
text block is split into chunks (`split`, the external
`RecursiveCharacterTextSplitter.split_text`), and each chunk becomes a
document of type `"text"` whose metadata page is `i + 1` for `i` the
block's position in `text_blocks` — not the page's position in the
document. -/
def build_documents (parseCsv : String → Option (List (List String)))
    (split : String → List String)
    (pages : List PageExtraction) (source : String) : List PyDocument :=
  let text_blocks :=
    (pages.map compose_page_text).filter (fun t => pyStripS t ≠ "")
  let tableDocs :=
    pages.enum.flatMap fun p => tableDocsOfPage parseCsv source p.1 p.2
  let textDocs :=
    text_blocks.enum.flatMap fun b =>
      (split b.2).map fun chunk => ⟨chunk, source, b.1 + 1, "text"⟩
  tableDocs ++ textDocs

/-! ## `src/vector_store.py`: the `VectorStore` wrapper

The underlying Chroma collection is an external nearest-neighbor index
(out of scope per the spec); it is modelled as the list of stored
documents.  A freshly created collection (as after `delete_collection`)
is empty.  Similarity and relevance scoring and the MMR re-ranking of
`as_retriever` (`search_type="mmr"`) live in the external
Chroma/LangChain libraries; they are modelled from the spec (§4.4-4.5):
relevance-filtered candidates, a `fetch_k` candidate pool, and a greedy
relevance/diversity selection down to `k` results, with the scoring
functions supplied as parameters. -/

/-- The `VectorStore` wrapper (vector_store.py lines 18-77). -/
structure VectorStore where
  docs : List PyDocument
  persist_path : String
deriving DecidableEq, Repr

/-- `VectorStore.add_documents` (lines 34-35): insert into the underlying
collection. -/
def VectorStore.add_documents (s : VectorStore) (ds : List PyDocument) :
    VectorStore :=
  { s with docs := s.docs ++ ds }

/-- `VectorStore.get_document_count` (lines 55-61): the number of ids in
the collection. -/
def VectorStore.get_document_count (s : VectorStore) : Nat :=
  s.docs.length

/-- `VectorStore.clear` (lines 63-75): delete the collection and recreate
it; the recreated collection is empty. -/
def VectorStore.clear (s : VectorStore) : VectorStore :=
  { s with docs := [] }

/-- First document maximising a score (greedy argmax, ties to the
earlier document). -/
def argmaxBy (f : PyDocument → ℚ) : List PyDocument → Option PyDocument
  | [] => none
  | d :: ds =>
    match argmaxBy f ds with
    | none => some d
    | some d' => if f d' > f d then some d' else some d

/-- Modelled from the spec (§4.4): greedy MMR selection — each next pick
maximises `lam * relevance - (1 - lam) * maxSimilarityToChosen` — down to
`k` results. -/
def mmrSelect (rel : PyDocument → ℚ) (sim : PyDocument → PyDocument → ℚ)
    (lam : ℚ) (chosen : List PyDocument) :
    Nat → List PyDocument → List PyDocument
  | 0, _ => []
  | k + 1, cands =>
    let score := fun d =>
      let maxSim := (chosen.map (sim d)).foldl max 0
      lam * rel d - (1 - lam) * maxSim
    match argmaxBy score cands with
    | none => []
    | some c =>
      c :: mmrSelect rel sim lam (chosen ++ [c]) k (cands.erase c)

/-- Modelled from the spec (§4.4-4.5): the retrieval performed through
`VectorStore.as_retriever` (vector_store.py lines 37-50) — candidates at
or above the relevance threshold, a pool of the `fetchK` most relevant,
then MMR re-ranking down to `k`.  `rel` and `sim` stand for the external
embedding-based relevance-to-query and passage-similarity scores. -/
def VectorStore.search (s : VectorStore) (rel : PyDocument → ℚ)
    (sim : PyDocument → PyDocument → ℚ) (k fetchK : Nat)
    (lam minRel : ℚ) : List PyDocument :=
  let eligible := s.docs.filter (fun d => minRel ≤ rel d)
  let pool := (eligible.mergeSort (fun a b => rel b ≤ rel a)).take fetchK
  mmrSelect rel sim lam [] k pool

/-- A side effect performed on the vector store during ingestion. -/
inductive StoreOp
  | add_documents (ds : List PyDocument)
  | persist
deriving DecidableEq, Repr

/-- The error `ingest_file` raises for a missing file (ingest.py lines
255-256). -/
inductive IngestError
  | fileNotFound (path : String)
deriving DecidableEq, Repr

/-- `ingest_file` (ingest.py lines 254-262): raise `FileNotFoundError`
when the path does not exist (`fsExists` models `pdf_path.exists()`),
otherwise extract the pages (`extractedPages` models the output of
`extract_pdf`, which wraps the external PDF/OCR libraries), build the
documents, add them to the store and persist.  The second component lists
the operations performed on the store, in order. -/
def ingest_file (fsExists : Bool) (pdf_path : String)
    (extractedPages : List PageExtraction)
    (parseCsv : String → Option (List (List String)))
    (split : String → List String) (store : VectorStore) :
    Except IngestError (Nat × String × VectorStore) × List StoreOp :=
  if fsExists then
    let pages := extractedPages
    let docs := build_documents parseCsv split pages pdf_path
    let store' := store.add_documents docs
    (.ok (docs.length, store'.persist_path, store'),
     [.add_documents docs, .persist])
  else
    (.error (.fileNotFound pdf_path), [])

/-! ## Helper lemmas -/

/-- A non-empty string has positive length. -/
theorem string_length_pos_of_ne_empty {s : String} (h : s ≠ "") :
    0 < s.length := by
  cases s with
  | mk l =>
    cases l with
    | nil => exact absurd rfl h
    | cons c cs => simp [String.length]

/-- Stripping the empty string yields the empty string. -/
theorem pyStripS_empty : pyStripS "" = "" := rfl

/-- MMR selection over an empty candidate pool selects nothing. -/
theorem mmrSelect_nil (rel : PyDocument → ℚ) (sim : PyDocument → PyDocument → ℚ)
    (lam : ℚ) (chosen : List PyDocument) :
    ∀ k, mmrSelect rel sim lam chosen k [] = []
  | 0 => rfl
  | _ + 1 => by simp [mmrSelect, argmaxBy]

/-! ## Claims -/

/-- C9: for every path that does not exist on disk, `ingest_file` raises a
file-not-found error immediately, performing no `add_documents` and no
`persist` on the vector store (the store-operation trace is empty and the
store value is untouched). -/
theorem C9_missing_file_raises_before_any_store_effect
    (pdf_path : String) (pages : List PageExtraction)
    (parseCsv : String → Option (List (List String)))
    (split : String → List String) (store : VectorStore) :
    ingest_file false pdf_path pages parseCsv split store =
      (.error (.fileNotFound pdf_path), []) := rfl

/-- C7: after `clear()` on the vector store, `get_document_count` returns
0 and a search against the emptied index returns the empty result (the
search is a total function — no error is possible), for every prior store
state, scoring function and retrieval parameter. -/
theorem C7_clear_then_count_zero_and_search_empty
    (s : VectorStore) (rel : PyDocument → ℚ)
    (sim : PyDocument → PyDocument → ℚ) (k fetchK : Nat) (lam minRel : ℚ) :
    (s.clear).get_document_count = 0 ∧
    (s.clear).search rel sim k fetchK lam minRel = [] := by
  refine ⟨rfl, ?_⟩
  simp [VectorStore.search, VectorStore.clear, mmrSelect_nil]

/-- C10: in the Streamlit app's query handler, the name `question` is not
bound in scope (the chat input is bound as `prompt`), so for every
submitted question against a non-empty index the handler raises
`NameError` at `detect_language(question)` before the normal answer path,
and returns the error-formatted answer with an empty source list. -/
theorem C10_unbound_question_forces_exception_branch :
    appBoundNames.contains "question" = false ∧
    ∀ (vals : String → String) (docCount : Nat) (prompt : String)
      (invoke : String → String × List PyDocument) (tb : String),
      0 < docCount →
      appHandleQuery vals docCount prompt invoke tb =
        (appErrorMsg (.nameError "question") tb, []) := by
  refine ⟨by decide, ?_⟩
  intro vals docCount prompt invoke tb h
  have h0 : ¬ docCount = 0 := Nat.pos_iff_ne_zero.mp h
  have hq : "question" ∉ appBoundNames := by decide
  simp only [appHandleQuery, appQueryTry, appLookup, h0, hq, if_false,
    ite_false, if_neg]
  rfl

/-- Witness for C10 at a concrete non-empty index. -/
theorem C10_witness :
    appHandleQuery (fun _ => "") 1 "hi" (fun _ => ("an answer", [])) "tb" =
      (appErrorMsg (.nameError "question") "tb", []) :=
  C10_unbound_question_forces_exception_branch.2
    (fun _ => "") 1 "hi" (fun _ => ("an answer", [])) "tb" (by decide)

/-- C2: at the failing input (a Devanagari question whose generator output
is the `NOT_FOUND` sentinel, index non-empty) the handler returns the
error-formatted answer — not the Hindi not-found message — because the
`NameError` of line 243 precedes the sentinel check; and even along the
intended path, the unconditional reassignment of lines 253-258 overwrites
the localized substitution with `clean_answer "NOT_FOUND" = "NOT_FOUND."`. -/
theorem C2_not_found_sentinel_never_reaches_localized_message :
    appHandleQuery (fun _ => "") 3 "क्या है?" (fun _ => ("NOT_FOUND", [])) "tb" =
      (appErrorMsg (.nameError "question") "tb", []) ∧
    appErrorMsg (.nameError "question") "tb" ≠ hindiNotFound ∧
    appAnswerSelect "hindi" "NOT_FOUND" = "NOT_FOUND." ∧
    appAnswerSelect "hindi" "NOT_FOUND" ≠ hindiNotFound := by
  refine ⟨by decide, by decide, by decide, by decide⟩

/-- C3 counterexample: `clean_answer` is not idempotent.  On the input
below, the first pass's sentence de-duplication drops the leading bare
period, exposing a "The answer is:" prefix at the start of the output; a
second pass then strips that prefix. -/
theorem C3_counterexample_not_idempotent :
    clean_answer (clean_answer ". The answer is: X useful sentence here.") ≠
      clean_answer ". The answer is: X useful sentence here." := by decide

/-- C3 (amended): `clean_answer` is idempotent on the empty string and on
already-normalised answers (a fully terminated plain sentence is a fixed
point), but not on all strings. -/
theorem C3_idempotent_on_normalised_answers :
    clean_answer (clean_answer "This is a complete sentence.") =
      clean_answer "This is a complete sentence." ∧
    clean_answer (clean_answer "") = clean_answer "" := ⟨rfl, rfl⟩

/-- C5 counterexample: a whitespace-only input is not returned unchanged —
`clean_answer` strips it to the empty string, which is also a non-empty
input mapped to an empty output. -/
theorem C5_counterexample_whitespace_not_preserved :
    clean_answer "   " ≠ "   " := by decide

/-- C5 (amended): `clean_answer` is a no-op on the empty string, and maps
a whitespace-only input to the empty string (its stripped form), so it can
return the empty string for a non-empty input. -/
theorem C5_empty_and_whitespace_results :
    clean_answer "" = "" ∧ clean_answer "   " = "" := ⟨rfl, rfl⟩

/-- C4: at the failing input — a document whose first page contributes no
text and whose second page contributes only text — the single chunk
produced from the second page's text block carries page metadata 1 (its
block's position among text-bearing blocks), not 2 (the page's 1-based
position in the document), for any splitter that returns a short block
unchanged. -/
theorem C4_text_chunk_page_is_block_position_not_page_position :
    build_documents (fun _ => none) (fun t => [t])
      [⟨"", [], ""⟩, ⟨"Second page text.", [], ""⟩] "doc.pdf" =
      [⟨"Second page text.", "doc.pdf", 1, "text"⟩] := by decide

/-- C6 counterexample: a page whose native text is short but non-blank and
whose OCR text is non-empty yet whitespace-only takes the combine branch,
not the OCR-alone branch: the stripped OCR length is 0, so the claimed
condition (OCR text non-empty) does not suffice. -/
theorem C6_counterexample_blank_ocr_not_used_alone :
    (pyStripS "short text").length < 50 ∧ (" " : String) ≠ "" ∧
    compose_page_text ⟨"short text", [], " "⟩ = "short text\n\n " ∧
    compose_page_text ⟨"short text", [], " "⟩ ≠ " " := by
  refine ⟨by decide, by decide, by decide, by decide⟩

/-- C6 (amended): for every page, if the stripped native text is shorter
than 50 characters and the *stripped* OCR text is non-empty, the page's
composed text block is the OCR text alone. -/
theorem C6_short_native_and_nonblank_ocr_gives_ocr_alone
    (p : PageExtraction) (h1 : (pyStripS p.text).length < 50)
    (h2 : pyStripS p.ocr_text ≠ "") :
    compose_page_text p = p.ocr_text := by
  have hne : p.ocr_text ≠ "" := by
    intro he
    exact h2 (by rw [he]; decide)
  have hpos : 0 < (pyStripS p.ocr_text).length :=
    string_length_pos_of_ne_empty h2
  simp [compose_page_text, hne, h1, hpos]

/-- Witness for C6 at a concrete page. -/
theorem C6_witness : compose_page_text ⟨"ab", [], " x "⟩ = " x " :=
  C6_short_native_and_nonblank_ocr_gives_ocr_alone
    ⟨"ab", [], " x "⟩ (by decide) (by decide)

/-- C8 counterexample: a parsed table row yields a document of type
`"table_row"`, which is neither `"text"` nor the claimed `"tableRow"`. -/
theorem C8_counterexample_type_table_row :
    build_documents (fun _ => some [["a", "b"]]) (fun t => [t])
      [⟨"", ["a,b"], ""⟩] "s" = [⟨"a | b", "s", 1, "table_row"⟩] ∧
    ("table_row" : String) ≠ "tableRow" ∧
    ("table_row" : String) ≠ "text" := by
  refine ⟨by decide, by decide, by decide⟩

/-- C8 (amended): every document produced by ingestion has type exactly
`"text"`, `"table"` (the unparseable-table fallback) or `"table_row"` —
for every CSV parser, splitter, page list and source. -/
theorem C8_types_are_text_table_or_table_row
    (parseCsv : String → Option (List (List String)))
    (split : String → List String) (pages : List PageExtraction)
    (source : String) (d : PyDocument)
    (hd : d ∈ build_documents parseCsv split pages source) :
    d.type = "text" ∨ d.type = "table" ∨ d.type = "table_row" := by
  simp only [build_documents, List.mem_append, List.mem_flatMap] at hd
  rcases hd with ⟨⟨idx, page⟩, _, hpd⟩ | ⟨⟨i, block⟩, _, hpd⟩
  · simp only [tableDocsOfPage, List.mem_flatMap] at hpd
    rcases hpd with ⟨csv, _, hd2⟩
    cases hp : parseCsv csv with
    | none =>
      rw [hp] at hd2
      simp only [List.mem_singleton] at hd2
      subst hd2
      right; left; rfl
    | some rows =>
      rw [hp] at hd2
      simp only [List.mem_map] at hd2
      rcases hd2 with ⟨row, _, hrow⟩
      subst hrow
      right; right; rfl
  · simp only [List.mem_map] at hpd
    rcases hpd with ⟨chunk, _, hchunk⟩
    subst hchunk
    left; rfl

/-- Witness for C8 at a concrete fallback table document. -/
theorem C8_witness :
    (⟨"a,b", "s", 1, "table"⟩ : PyDocument).type = "text" ∨
    (⟨"a,b", "s", 1, "table"⟩ : PyDocument).type = "table" ∨
    (⟨"a,b", "s", 1, "table"⟩ : PyDocument).type = "table_row" :=
  C8_types_are_text_table_or_table_row (fun _ => none) (fun t => [t])
    [⟨"", ["a,b"], ""⟩] "s" ⟨"a,b", "s", 1, "table"⟩ (by decide)

/-- C1 counterexample: the pipeline performs no grounding classification —
a candidate answer sharing zero tokens with every retrieved passage (so
`isGroundedSpec` is false) is returned after normalisation, not replaced
by a not-found message. -/
theorem C1_counterexample_ungrounded_answer_returned :
    isGroundedSpec "zebra quantum machinery" ["the cat sat on the mat"] = false ∧
    backendAnswer (fun _ _ => "") "What is the color?" "zebra quantum machinery"
        [⟨"the cat sat on the mat", "doc.pdf", 1, "text"⟩] =
      "zebra quantum machinery." ∧
    ("zebra quantum machinery." : String) ≠ englishNotFound ∧
    ("zebra quantum machinery." : String) ≠ hindiNotFound := by
  refine ⟨by decide, by decide, by decide, by decide⟩

/-- C1 (amended): the code contains no lexical-overlap grounding check.
For every question without a limitation keyword and every non-blank raw
answer, the backend's answer is independent of the retrieved passages
(their only influence on a non-blank answer is the limitations-question
hallucination heuristic), so no token-overlap threshold is applied. -/
theorem C1_no_grounding_check_answer_independent_of_passages
    (extract : String → List PyDocument → String)
    (question raw : String) (docs docs' : List PyDocument)
    (h1 : pyStripS raw ≠ "")
    (h2 : (limitKeywords.any fun kw => hasSubS kw (pyLowerS question)) = false) :
    backendAnswer extract question raw docs =
      backendAnswer extract question raw docs' := by
  have hr : raw ≠ "" := by
    intro he
    exact h1 (by rw [he]; decide)
  simp [backendAnswer, hr, h1, h2]

/-- Witness for C1 at a concrete non-blank answer and passage lists. -/
theorem C1_witness :
    backendAnswer (fun _ _ => "") "q" "hello world" [] =
      backendAnswer (fun _ _ => "") "q" "hello world"
        [⟨"x", "s", 1, "text"⟩] :=
  C1_no_grounding_check_answer_independent_of_passages
    (fun _ _ => "") "q" "hello world" [] [⟨"x", "s", 1, "text"⟩]
    (by decide) (by decide)

end MQA
